import Mathlib

/-!
Shallow embedding of the Workouts tracker (src/Workoutstracker.py and the
near-identical save/load logic of src/Workoutbrowser.py).

The per-user workout table is a pandas DataFrame persisted as
`user_folders/<user>/workouts.csv` with columns Date, Exercise, Weight, Reps;
the credential store is the dict persisted as `user_folders/users.json`.
Each streamlit rerun loads the CSV, mutates the frame in memory and writes it
back whole, so every operation is modelled as a pure function from the
persisted table (a `List Row`) to the new persisted table.
-/

namespace Workouts

/-- A calendar date as carried by `st.date_input` / `pd.Timestamp`
(year, month, day; no time of day survives anywhere in the program). -/
structure Date where
  year : Nat
  month : Nat
  day : Nat
deriving DecidableEq

/-- One value of the DataFrame's Date column.  The constructors record the
Python type of the value, because `drop_duplicates` compares raw values:

* `na`   — NaN / NaT (missing, or the result of a failed `pd.to_datetime`);
* `iso`  — a raw CSV string that `pd.to_datetime` parses to the date `d`
  (strings are modelled by their parse result; `strftime("%Y-%m-%d")` and
  `to_csv` on a midnight Timestamp produce exactly such a string);
* `junk` — a raw CSV string that `pd.to_datetime(..., errors="coerce")`
  fails to parse (it becomes NaT);
* `ts`   — a pandas `Timestamp`, the form every date has after
  `pd.to_datetime`;
* `py`   — a python `datetime.date` as returned by `st.date_input`.

`ts d` and `py d` are distinct values even for the same calendar day: in
Python, `pd.Timestamp("2024-01-01") == datetime.date(2024, 1, 1)` is `False`
(and their hashes differ), so in the hash-based comparison of
`drop_duplicates` a Timestamp row never matches a date row.  The derived
structural equality reproduces exactly that. -/
inductive DCell where
  | na : DCell
  | iso : Date → DCell
  | junk : String → DCell
  | ts : Date → DCell
  | py : Date → DCell
deriving DecidableEq

/-- One DataFrame row: Date, Exercise, Weight, Reps.  Weight and Reps are
`none` when the CSV field is missing (NaN); floats carry no float-specific
behaviour here, so they are modelled as rationals. -/
structure Row where
  date : DCell
  exercise : Option String
  weight : Option ℚ
  reps : Option ℚ
deriving DecidableEq

/-- Effect of `pd.to_datetime(df["Date"], errors="coerce")` on one cell:
parseable strings and date objects become Timestamps, unparseable strings
become NaT, NaT stays NaT. -/
def toDTCell : DCell → DCell
  | DCell.na => DCell.na
  | DCell.iso d => DCell.ts d
  | DCell.junk _ => DCell.na
  | DCell.ts d => DCell.ts d
  | DCell.py d => DCell.ts d

/-- Effect of `df["Date"].dt.strftime("%Y-%m-%d")` (equally, of `to_csv` on a
midnight Timestamp) on one cell: a Timestamp becomes its canonical
YYYY-MM-DD string, which parses back to the same date. -/
def strftimeCell : DCell → DCell
  | DCell.ts d => DCell.iso d
  | c => c

/-- `pd.notna` on a Date cell. -/
def dcellNotNA : DCell → Bool
  | DCell.na => false
  | _ => true

/-- `pd.to_datetime` applied to the Date column of one row. -/
def toDTRow (r : Row) : Row :=
  { r with date := toDTCell r.date }

/-- `strftime("%Y-%m-%d")` applied to the Date column of one row. -/
def strftimeRow (r : Row) : Row :=
  { r with date := strftimeCell r.date }

/-- The row-keeping test of `df.dropna(subset=["Date", "Weight", "Reps"])`. -/
def validRow (r : Row) : Bool :=
  dcellNotNA r.date && r.weight.isSome && r.reps.isSome

/-- Whether `pd.to_datetime(..., errors="coerce")` turns this raw Date cell
into an actual Timestamp (rather than NaT). -/
def dateParses (c : DCell) : Bool :=
  dcellNotNA (toDTCell c)

/-- Loading the persisted table (Workoutstracker.py lines 129-134,
Workoutbrowser.py lines 20-26): `pd.read_csv`, then
`df["Date"] = pd.to_datetime(df["Date"], errors="coerce")`, then
`df = df.dropna(subset=["Date", "Weight", "Reps"])`.  A missing file loads
as the empty table `[]`.  No error is ever reported: dropped rows are
silently filtered. -/
def loadTable (file : List Row) : List Row :=
  (file.map toDTRow).filter validRow

/-- The deduplication key of `drop_duplicates(subset=["Date", "Exercise"])`:
the raw Date cell paired with the Exercise cell. -/
def rowKey (r : Row) : DCell × Option String :=
  (r.date, r.exercise)

/-- `df.drop_duplicates(subset=["Date", "Exercise"], keep="last")`: a row is
kept exactly when no later row has the same raw (Date, Exercise) key; the
order of the kept rows is preserved. -/
def dropDupKeepLast : List Row → List Row
  | [] => []
  | r :: rs =>
    if rowKey r ∈ rs.map rowKey then dropDupKeepLast rs
    else r :: dropDupKeepLast rs

/-- The Save Workout button handler (Workoutstracker.py lines 151-163,
Workoutbrowser.py lines 41-52) acting on the in-memory frame `df`:

* `if exercise:` — the empty string is rejected (`none`; the error message
  is shown and nothing is written to disk); any non-empty string, including
  whitespace-only ones, passes;
* a one-row frame is appended whose Date cell is the `datetime.date` from
  `st.date_input` (constructor `DCell.py`);
* `drop_duplicates(subset=["Date", "Exercise"], keep="last")` on raw cells;
* re-validation exactly as in `loadTable` (`to_datetime` + `dropna`);
* `strftime("%Y-%m-%d")` and `to_csv`: the returned list is the new
  persisted table. -/
def saveWorkout (df : List Row) (d : Date) (exercise : String) (weight reps : ℚ) :
    Option (List Row) :=
  if exercise = "" then none
  else
    let withNew := df ++ [Row.mk (DCell.py d) (some exercise) (some weight) (some reps)]
    let deduped := dropDupKeepLast withNew
    let revalidated := (deduped.map toDTRow).filter validRow
    some (revalidated.map strftimeRow)

/-- The Save Changes (edit) button handler (Workoutstracker.py lines
183-192): every row whose raw (Date, Exercise) cells equal the selected
row's is overwritten in all four fields with the edited values; the edited
date, assigned into the datetime64 Date column, is coerced to a Timestamp
(`DCell.ts`).  The frame is then written to CSV unchanged (midnight
Timestamps render as YYYY-MM-DD).  No deduplication happens on this path. -/
def editEntry (df : List Row) (selDate : DCell) (selEx : Option String)
    (newDate : Date) (newEx : String) (newW newR : ℚ) : List Row :=
  df.map fun r =>
    if r.date = selDate ∧ r.exercise = selEx then
      Row.mk (DCell.ts newDate) (some newEx) (some newW) (some newR)
    else r

/-- No two rows of the list share the same (Date, Exercise) key. -/
def KeysPairwiseDistinct (l : List Row) : Prop :=
  l.Pairwise fun a b => rowKey a ≠ rowKey b

/-- Outcome of `login_user` / `delete_account` distinguished by the
`st.error` message: `unknownUser` is "User does not exist.", `wrongPassword`
is "Incorrect password.", `ok` is the `return True` path. -/
inductive AuthResult where
  | ok : AuthResult
  | unknownUser : AuthResult
  | wrongPassword : AuthResult
deriving DecidableEq

/-- Outcome of `create_account` distinguished by the `st.error` message:
`duplicateUser` is "User already exists.", `passwordMismatch` is
"Password must match.", `ok` is the success path.  The function has no
other failure mode — in particular no empty-field check. -/
inductive CreateResult where
  | ok : CreateResult
  | duplicateUser : CreateResult
  | passwordMismatch : CreateResult
deriving DecidableEq

/-- The whole persistent and session state of Workoutstracker.py:

* `users`   — the credential dict of `users.json`, username to sha256 hex
  digest (an association list looked up by key, as a dict is);
* `dirs`    — the user directories under `user_folders/`;
* `csv`     — the per-user `workouts.csv` tables (absent key = no file);
* `session` — `st.session_state.username` when `logged_in`, else `none`.

`save_users()` writes `users` to disk on every mutation, so the in-memory
dict and the persisted file never differ and one field models both. -/
structure AppState where
  users : List (String × String)
  dirs : List String
  csv : List (String × List Row)
  session : Option String
deriving DecidableEq

/-- Removal of a key from an association list (Python `del users[username]`,
and the effect of `shutil.rmtree` on the per-user tables). -/
def removeKey {β : Type} (k : String) : List (String × β) → List (String × β)
  | [] => []
  | kv :: m => if kv.1 = k then removeKey k m else kv :: removeKey k m

/-- Removal of a directory name (`shutil.rmtree(user_folder)`). -/
def removeDir (k : String) : List String → List String
  | [] => []
  | x :: m => if x = k then removeDir k m else x :: removeDir k m

/-- Python dict assignment `users[username] = v`, modelled up to lookup. -/
def dictSet {β : Type} (m : List (String × β)) (k : String) (v : β) :
    List (String × β) :=
  (k, v) :: removeKey k m

/-- `create_account(username, password, password_confirm)` (lines 39-50).
`hashP` stands for `hash_password` (sha256 hex digest); the function only
ever applies it and compares results, so it is kept abstract.  Checks, in
source order: duplicate username, then password/confirmation mismatch.  On
success the digest is stored, `save_users()` persists the dict, and
`os.makedirs(..., exist_ok=True)` creates the user directory. -/
def create_account (hashP : String → String) (st : AppState)
    (username password password_confirm : String) : CreateResult × AppState :=
  match st.users.lookup username with
  | some _ => (CreateResult.duplicateUser, st)
  | none =>
    if password ≠ password_confirm then (CreateResult.passwordMismatch, st)
    else
      (CreateResult.ok,
        { st with
          users := dictSet st.users username (hashP password)
          dirs := if username ∈ st.dirs then st.dirs else username :: st.dirs })

/-- `login_user(username, password)` (lines 52-62): unknown user, then
digest mismatch, then success (which only sets the session). -/
def login_user (hashP : String → String) (st : AppState)
    (username password : String) : AuthResult × AppState :=
  match st.users.lookup username with
  | none => (AuthResult.unknownUser, st)
  | some h =>
    if h ≠ hashP password then (AuthResult.wrongPassword, st)
    else (AuthResult.ok, { st with session := some username })

/-- `delete_account(username, password)` (lines 68-94): the same two checks
as `login_user`, then `shutil.rmtree` of the user directory (removing its
`workouts.csv`), `del users[username]`, `save_users()`, and logout. -/
def delete_account (hashP : String → String) (st : AppState)
    (username password : String) : AuthResult × AppState :=
  match st.users.lookup username with
  | none => (AuthResult.unknownUser, st)
  | some h =>
    if h ≠ hashP password then (AuthResult.wrongPassword, st)
    else
      (AuthResult.ok,
        { users := removeKey username st.users
          dirs := removeDir username st.dirs
          csv := removeKey username st.csv
          session := none })

/-- A concrete stand-in digest function for closed instances; the account
logic never inspects digests beyond equality of `hashP` outputs. -/
def hashDemo (s : String) : String :=
  String.append "digest:" s

/-- The empty application state (fresh install). -/
def st0 : AppState :=
  AppState.mk [] [] [] none

/-- 2024-01-01 and 2024-01-02. -/
def d1 : Date :=
  Date.mk 2024 1 1

def d2 : Date :=
  Date.mk 2024 1 2

/-- The persisted table after saving (2024-01-01, Squat, 100, 5) into an
empty log. -/
def fileSquat1 : List Row :=
  [Row.mk (DCell.iso d1) (some "Squat") (some 100) (some 5)]

/-- The persisted table after additionally saving (2024-01-02, Bench, 80, 8). -/
def fileC2 : List Row :=
  [Row.mk (DCell.iso d1) (some "Squat") (some 100) (some 5),
   Row.mk (DCell.iso d2) (some "Bench") (some 80) (some 8)]

/-- A state holding the account alice with password pw123 and the one-entry
workout table `fileSquat1`. -/
def stAlice : AppState :=
  AppState.mk [("alice", hashDemo "pw123")] ["alice"] [("alice", fileSquat1)]
    (some "alice")

/-- Looking up a key just set by dict assignment returns the stored value. -/
theorem lookup_dictSet_self {β : Type} (m : List (String × β)) (k : String) (v : β) :
    (dictSet m k v).lookup k = some v := by
  simp [dictSet, List.lookup]

/-- Looking up a deleted key returns nothing. -/
theorem lookup_removeKey_self {β : Type} (m : List (String × β)) (k : String) :
    (removeKey k m).lookup k = none := by
  induction m with
  | nil => rfl
  | cons kv m ih =>
    by_cases hk : kv.1 = k
    · simp only [removeKey, if_pos hk]
      exact ih
    · simp only [removeKey, if_neg hk, List.lookup]
      cases hbeq : k == kv.1 with
      | true => exact absurd (eq_of_beq hbeq).symm hk
      | false => exact ih

/-- A removed directory is gone. -/
theorem not_mem_removeDir_self (k : String) (l : List String) :
    k ∉ removeDir k l := by
  induction l with
  | nil => simp [removeDir]
  | cons x l ih =>
    by_cases hx : x = k
    · simpa [removeDir, hx] using ih
    · simp only [removeDir, if_neg hx, List.mem_cons]
      rintro (h | h)
      · exact hx h.symm
      · exact ih h

/-- Rows surviving `drop_duplicates` come from the original frame. -/
theorem mem_of_mem_dropDupKeepLast {r : Row} :
    ∀ {rows : List Row}, r ∈ dropDupKeepLast rows → r ∈ rows := by
  intro rows
  induction rows with
  | nil => intro h; exact absurd h (List.not_mem_nil r)
  | cons a rows ih =>
    intro h
    unfold dropDupKeepLast at h
    split at h
    · exact List.mem_cons_of_mem _ (ih h)
    · rcases List.mem_cons.mp h with h1 | h2
      · exact h1 ▸ List.mem_cons_self _ _
      · exact List.mem_cons_of_mem _ (ih h2)

/-- With `keep="last"`, the newly appended final row always survives
`drop_duplicates`. -/
theorem mem_dropDupKeepLast_append_last (rows : List Row) (r : Row) :
    r ∈ dropDupKeepLast (rows ++ [r]) := by
  induction rows with
  | nil => simp [dropDupKeepLast]
  | cons a rows ih =>
    show r ∈ dropDupKeepLast (a :: (rows ++ [r]))
    unfold dropDupKeepLast
    split
    · exact ih
    · exact List.mem_cons_of_mem _ ih

/-- Claim C7: loading a persisted table keeps exactly the rows whose Date
field parses as a calendar date and whose Weight and Reps fields are
present, carried over with their dates parsed; every other row is silently
dropped (load reports no error: it is a total function into the kept rows). -/
theorem load_filters_exactly (file : List Row) :
    loadTable file =
      (file.filter fun r => dateParses r.date && r.weight.isSome && r.reps.isSome).map
        toDTRow := by
  unfold loadTable
  rw [List.filter_map]
  rfl

/-- Claim C2 (amended): the deduplication step inside the save handler does
produce a frame with pairwise-distinct raw (Date, Exercise) keys. -/
theorem dedup_step_keys_distinct (rows : List Row) :
    KeysPairwiseDistinct (dropDupKeepLast rows) := by
  induction rows with
  | nil => exact List.Pairwise.nil
  | cons a rows ih =>
    unfold dropDupKeepLast
    split
    · exact ih
    case isFalse hnot =>
      refine List.Pairwise.cons (fun b hb heq => hnot ?_) ih
      exact heq ▸ List.mem_map_of_mem rowKey (mem_of_mem_dropDupKeepLast hb)

/-- Claim C2 (counterexample): two saves with distinct keys followed by one
edit whose new (date, exercise) collides with the other entry leave two
entries in the log with the same (Date, Exercise) key — `edit_entry`
bypasses the dedup path and breaks the uniqueness invariant. -/
theorem edit_breaks_uniqueness :
    saveWorkout (loadTable []) d1 "Squat" 100 5 = some fileSquat1 ∧
    saveWorkout (loadTable fileSquat1) d2 "Bench" 80 8 = some fileC2 ∧
    ¬ KeysPairwiseDistinct
        (editEntry (loadTable fileC2) (DCell.ts d1) (some "Squat") d2 "Bench" 90 6) := by
  refine ⟨rfl, rfl, ?_⟩
  intro hcontra
  have he : editEntry (loadTable fileC2) (DCell.ts d1) (some "Squat") d2 "Bench" 90 6 =
      [Row.mk (DCell.ts d2) (some "Bench") (some 90) (some 6),
       Row.mk (DCell.ts d2) (some "Bench") (some 80) (some 8)] := rfl
  rw [he] at hcontra
  rcases List.pairwise_cons.mp hcontra with ⟨hhead, -⟩
  exact hhead _ (List.mem_cons_self _ _) rfl

/-- Claim C1 (code bug): saving (2024-01-01, Squat, 100, 5) into an empty
log and then saving (2024-01-01, Squat, 105, 5) leaves TWO rows for the pair
(2024-01-01, Squat) in the persisted table, not one: the new entry's
`datetime.date` never equals the loaded `Timestamp` in the raw-value
comparison of `drop_duplicates`, so the intended upsert appends instead of
replacing. -/
theorem upsert_leaves_duplicate_rows :
    saveWorkout (loadTable []) d1 "Squat" 100 5 = some fileSquat1 ∧
    saveWorkout (loadTable fileSquat1) d1 "Squat" 105 5 =
      some [Row.mk (DCell.iso d1) (some "Squat") (some 100) (some 5),
            Row.mk (DCell.iso d1) (some "Squat") (some 105) (some 5)] :=
  ⟨rfl, rfl⟩

/-- Claim C8: saving a valid entry (any date from the picker, a non-empty
exercise name, weight and reps present) and then loading yields a log that
contains that entry, with the same exercise, weight and reps and with its
date parsed back from the canonical YYYY-MM-DD form the save wrote. -/
theorem save_load_round_trip (file : List Row) (d : Date) (e : String) (w r : ℚ)
    (he : e ≠ "") :
    ∃ file2, saveWorkout (loadTable file) d e w r = some file2 ∧
      Row.mk (DCell.ts d) (some e) (some w) (some r) ∈ loadTable file2 := by
  unfold saveWorkout
  rw [if_neg he]
  refine ⟨_, rfl, ?_⟩
  have h1 : Row.mk (DCell.py d) (some e) (some w) (some r) ∈
      dropDupKeepLast
        (loadTable file ++ [Row.mk (DCell.py d) (some e) (some w) (some r)]) :=
    mem_dropDupKeepLast_append_last _ _
  have h2 : Row.mk (DCell.ts d) (some e) (some w) (some r) ∈
      (dropDupKeepLast
        (loadTable file ++ [Row.mk (DCell.py d) (some e) (some w) (some r)])).map
        toDTRow :=
    List.mem_map_of_mem toDTRow h1
  have h3 : Row.mk (DCell.ts d) (some e) (some w) (some r) ∈
      ((dropDupKeepLast
        (loadTable file ++ [Row.mk (DCell.py d) (some e) (some w) (some r)])).map
        toDTRow).filter validRow :=
    List.mem_filter.mpr ⟨h2, rfl⟩
  have h4 : Row.mk (DCell.iso d) (some e) (some w) (some r) ∈
      (((dropDupKeepLast
        (loadTable file ++ [Row.mk (DCell.py d) (some e) (some w) (some r)])).map
        toDTRow).filter validRow).map strftimeRow :=
    List.mem_map_of_mem strftimeRow h3
  have h5 : Row.mk (DCell.ts d) (some e) (some w) (some r) ∈
      ((((dropDupKeepLast
        (loadTable file ++ [Row.mk (DCell.py d) (some e) (some w) (some r)])).map
        toDTRow).filter validRow).map strftimeRow).map toDTRow :=
    List.mem_map_of_mem toDTRow h4
  exact List.mem_filter.mpr ⟨h5, rfl⟩

/-- Witness for `save_load_round_trip` at a concrete input. -/
theorem save_load_round_trip_witness :
    ∃ file2, saveWorkout (loadTable []) d1 "Squat" 100 5 = some file2 ∧
      Row.mk (DCell.ts d1) (some "Squat") (some 100) (some 5) ∈ loadTable file2 :=
  save_load_round_trip [] d1 "Squat" 100 5 (by decide)

/-- Claim C9 (counterexample): a whitespace-only exercise name is not
rejected — `if exercise:` only tests for the empty string, so saving
(2024-01-01, " ", 100, 5) succeeds and the entry is persisted. -/
theorem save_accepts_whitespace_name :
    saveWorkout [] d1 " " 100 5 =
      some [Row.mk (DCell.iso d1) (some " ") (some 100) (some 5)] :=
  rfl

/-- Claim C9 (amended): the save handler fails (showing the empty-name error
and persisting nothing) exactly when the exercise name is the empty string;
no whitespace trimming is applied. -/
theorem save_rejects_only_empty_string (df : List Row) (d : Date) (e : String)
    (w r : ℚ) :
    saveWorkout df d e w r = none ↔ e = "" := by
  unfold saveWorkout
  split
  · simp_all
  · simp_all

/-- Claim C3: `login_user` fails with the unknown-user error exactly when
the username is not in the credential store, and with the wrong-password
error exactly when the username is present but the stored digest differs
from the digest of the supplied password; hence an existing user with a
wrong password always gets the wrong-password error, never unknown-user. -/
theorem login_taxonomy (hashP : String → String) (st : AppState) (u p : String) :
    ((login_user hashP st u p).1 = AuthResult.unknownUser ↔
      st.users.lookup u = none) ∧
    ((login_user hashP st u p).1 = AuthResult.wrongPassword ↔
      ∃ h, st.users.lookup u = some h ∧ h ≠ hashP p) := by
  cases hl : st.users.lookup u with
  | none => simp [login_user, hl]
  | some h =>
    by_cases hp : h = hashP p
    · simp [login_user, hl, hp]
    · simp [login_user, hl, hp]

/-- Claim C4: creating an account with an unused username and matching
confirmation succeeds, stores the password digest under the username, and a
subsequent login with the same password succeeds. -/
theorem create_then_login (hashP : String → String) (st : AppState) (u p : String)
    (hu : st.users.lookup u = none) :
    (create_account hashP st u p p).1 = CreateResult.ok ∧
    (create_account hashP st u p p).2.users.lookup u = some (hashP p) ∧
    (login_user hashP (create_account hashP st u p p).2 u p).1 = AuthResult.ok := by
  have hcreate : create_account hashP st u p p =
      (CreateResult.ok,
        { st with
          users := dictSet st.users u (hashP p)
          dirs := if u ∈ st.dirs then st.dirs else u :: st.dirs }) := by
    simp [create_account, hu]
  rw [hcreate]
  refine ⟨rfl, lookup_dictSet_self _ _ _, ?_⟩
  simp [login_user, lookup_dictSet_self]

/-- Witness for `create_then_login` at a concrete input. -/
theorem create_then_login_witness :
    (create_account hashDemo st0 "alice" "pw123" "pw123").1 = CreateResult.ok ∧
    (create_account hashDemo st0 "alice" "pw123" "pw123").2.users.lookup "alice" =
      some (hashDemo "pw123") ∧
    (login_user hashDemo (create_account hashDemo st0 "alice" "pw123" "pw123").2
      "alice" "pw123").1 = AuthResult.ok :=
  create_then_login hashDemo st0 "alice" "pw123" rfl

/-- Claim C5 (counterexample): `create_account` with empty username, empty
password and empty confirmation succeeds on a fresh store and stores an
account under the empty username — there is no empty-field rejection. -/
theorem create_empty_succeeds :
    (create_account hashDemo st0 "" "" "").1 = CreateResult.ok ∧
    (create_account hashDemo st0 "" "" "").2.users.lookup "" =
      some (hashDemo "") :=
  ⟨rfl, rfl⟩

/-- Claim C5 (amended): `create_account` performs no emptiness validation at
all — it succeeds exactly when the username is unused and the password
matches its confirmation, empty strings included. -/
theorem create_account_no_empty_check (hashP : String → String) (st : AppState)
    (u p pc : String) :
    (create_account hashP st u p pc).1 = CreateResult.ok ↔
      (st.users.lookup u = none ∧ p = pc) := by
  cases hl : st.users.lookup u with
  | none =>
    by_cases hpc : p = pc
    · simp [create_account, hl, hpc]
    · simp [create_account, hl, hpc]
  | some h => simp [create_account, hl]

/-- Claim C6: `delete_account` runs exactly the password verification of
`login_user` (its result is always the same as login's on the same state),
and with the correct password it succeeds, after which logging in again
fails with the unknown-user error, the user's workout table is gone and the
user's directory is gone. -/
theorem delete_account_spec (hashP : String → String) (st : AppState) (u p : String) :
    (delete_account hashP st u p).1 = (login_user hashP st u p).1 ∧
    (st.users.lookup u = some (hashP p) →
      (delete_account hashP st u p).1 = AuthResult.ok ∧
      (login_user hashP (delete_account hashP st u p).2 u p).1 =
        AuthResult.unknownUser ∧
      (delete_account hashP st u p).2.csv.lookup u = none ∧
      u ∉ (delete_account hashP st u p).2.dirs) := by
  cases hl : st.users.lookup u with
  | none =>
    refine ⟨by simp [delete_account, login_user, hl], fun hc => ?_⟩
    exact absurd hc (by simp)
  | some h =>
    by_cases hp : h = hashP p
    · subst hp
      refine ⟨by simp [delete_account, login_user, hl], fun _ => ?_⟩
      refine ⟨by simp [delete_account, hl], ?_, ?_, ?_⟩
      · simp [delete_account, hl, login_user, lookup_removeKey_self]
      · simp [delete_account, hl, lookup_removeKey_self]
      · simp only [delete_account, hl]
        simpa using not_mem_removeDir_self u st.dirs
    · refine ⟨by simp [delete_account, login_user, hl, hp], fun hc => ?_⟩
      injection hc with hc
      exact absurd hc hp

/-- Witness for `delete_account_spec` at a concrete input, discharging the
correct-password hypothesis of its second part. -/
theorem delete_account_spec_witness :
    (delete_account hashDemo stAlice "alice" "pw123").1 =
      (login_user hashDemo stAlice "alice" "pw123").1 ∧
    ((delete_account hashDemo stAlice "alice" "pw123").1 = AuthResult.ok ∧
      (login_user hashDemo (delete_account hashDemo stAlice "alice" "pw123").2
        "alice" "pw123").1 = AuthResult.unknownUser ∧
      (delete_account hashDemo stAlice "alice" "pw123").2.csv.lookup "alice" =
        none ∧
      "alice" ∉ (delete_account hashDemo stAlice "alice" "pw123").2.dirs) :=
  ⟨(delete_account_spec hashDemo stAlice "alice" "pw123").1,
   (delete_account_spec hashDemo stAlice "alice" "pw123").2 rfl⟩

/-- Claim C10: whenever `create_account`, `login_user` or `delete_account`
fails, it returns before any mutation: the credential store, every per-user
table, the directory layout and the session are exactly as before the call. -/
theorem failures_leave_state_unchanged (hashP : String → String) (st : AppState)
    (u p pc : String) :
    ((create_account hashP st u p pc).1 ≠ CreateResult.ok →
      (create_account hashP st u p pc).2 = st) ∧
    ((login_user hashP st u p).1 ≠ AuthResult.ok →
      (login_user hashP st u p).2 = st) ∧
    ((delete_account hashP st u p).1 ≠ AuthResult.ok →
      (delete_account hashP st u p).2 = st) := by
  refine ⟨?_, ?_, ?_⟩
  · intro hfail
    cases hl : st.users.lookup u with
    | some h => simp [create_account, hl]
    | none =>
      by_cases hpc : p = pc
      · exact absurd (by simp [create_account, hl, hpc]) hfail
      · simp [create_account, hl, hpc]
  · intro hfail
    cases hl : st.users.lookup u with
    | none => simp [login_user, hl]
    | some h =>
      by_cases hp : h = hashP p
      · exact absurd (by simp [login_user, hl, hp]) hfail
      · simp [login_user, hl, hp]
  · intro hfail
    cases hl : st.users.lookup u with
    | none => simp [delete_account, hl]
    | some h =>
      by_cases hp : h = hashP p
      · exact absurd (by simp [delete_account, hl, hp]) hfail
      · simp [delete_account, hl, hp]

/-- Witness for `failures_leave_state_unchanged` at concrete inputs: a
duplicate-username creation, a wrong-password login and a wrong-password
deletion all leave the state untouched. -/
theorem failures_leave_state_unchanged_witness :
    (create_account hashDemo stAlice "alice" "bad" "worse").2 = stAlice ∧
    (login_user hashDemo stAlice "alice" "bad").2 = stAlice ∧
    (delete_account hashDemo stAlice "alice" "bad").2 = stAlice :=
  ⟨(failures_leave_state_unchanged hashDemo stAlice "alice" "bad" "worse").1
      (by decide),
   (failures_leave_state_unchanged hashDemo stAlice "alice" "bad" "worse").2.1
      (by decide),
   (failures_leave_state_unchanged hashDemo stAlice "alice" "bad" "worse").2.2
      (by decide)⟩

end Workouts
